import Mathlib

/-!
Shallow embedding of the duck-hunting command resolution engine
(`cogs/ducks_hunting_commands.py`): the `bang` shot-resolution command and
the `reload` command, together with the chance-trial primitive
`compute_luck`.

External collaborators (persistence, the duck-spawning subsystem, the
progression table `get_level_info`, the random number generator) are
modelled at their interface boundary: player records are explicit values
threaded through the functions, the random source is a stream of draws
`R : Nat → Nat` (each draw standing for `random.randint(1, 100)`), the
progression table is a parameter `level : Int → LevelInfo`, and the
presence of a duck in the channel is a boolean input.
-/

namespace DuckHunt

/-- The per-player statistic counters touched by `bang` and `reload`
(`shooting_stats` in the source; write-only telemetry). -/
structure Stats where
  shots_when_dead : Int
  shots_when_wet : Int
  shots_when_confiscated : Int
  shots_when_sabotaged : Int
  shots_when_jammed : Int
  shots_with_empty_magazine : Int
  shots_jamming_weapon : Int
  bullets_used : Int
  missed : Int
  homing_kills : Int
  killed : Int
  murders : Int
  got_killed : Int
  shots_with_duck : Int
  shots_stopped_by_detector : Int
  shots_without_ducks : Int
  reloads_when_confiscated : Int
  reloads : Int
  unneeded_reloads : Int
deriving DecidableEq, Repr

/-- A player record (`Player` model in the source), with the
`active_powerups` mapping flattened into one field per key used by the
shooting commands.  `wet` is an expiry timestamp, `dead`, `sand`,
`mirror`, `sight`, `homing_bullets` and `detector` are counters.
`grease` — Modelled from the spec: the `is_powerup_active('grease')`
helper lives in the models module, absent here; the spec describes grease
as "boolean-like/any-positive", so the powerup is active iff `grease > 0`. -/
structure Player where
  id : Nat
  experience : Int
  bullets : Int
  magazines : Int
  weapon_confiscated : Bool
  weapon_jammed : Bool
  weapon_sabotaged_by : Option Nat
  dead : Int
  wet : Int
  sand : Int
  mirror : Int
  sight : Int
  homing_bullets : Int
  detector : Int
  grease : Int
  stats : Stats
deriving DecidableEq, Repr

/-- The progression snapshot returned by `get_level_info(experience)`
(the tier table itself is external to this repository). -/
structure LevelInfo where
  bullets : Int
  magazines : Int
  reliability : Int
  accuracy : Int
deriving DecidableEq, Repr

/-- `compute_luck(luck_pct)`: draw `current = random.randint(1, 100)` and
return `current <= luck_pct`.  The draw is passed explicitly; the
threshold is a rational because the accuracy threshold becomes fractional
after the mirror/sight adjustments (Python float division, modelled
exactly over ℚ). -/
def compute_luck (luck_pct : Rat) (current : Nat) : Bool :=
  decide ((current : Rat) ≤ luck_pct)

/-- Python `int()` applied to a rational: truncation toward zero. -/
def pyTrunc (q : Rat) : Int :=
  if q < 0 then -(Rat.floor (-q)) else Rat.floor q

/-- The terminal outcome of one `bang` invocation. -/
inductive Outcome
  | shooterDead
  | shooterWet
  | confiscated
  | sabotaged
  | jammed
  | emptyMagazine
  | jamRollFailed
  | missedTree
  | killedSomeone
  | duckHit
  | detectorStopped
  | shotNothing
deriving DecidableEq, Repr

/-- The result of one `bang` invocation: the outcome, the shooter's
record as persisted, and the victim's record as persisted when a second,
distinct player record was saved. -/
structure BangResult where
  outcome : Outcome
  hunter : Player
  victim : Option Player
deriving DecidableEq, Repr

/-- Environment of one `bang` invocation: current time, progression
table, channel configuration (`kill_on_miss_chance`), whether
`ctx.target_next_duck()` finds a duck, the record `get_random_player`
would return, and the random draw stream. -/
structure BangEnv where
  now : Int
  level : Int → LevelInfo
  kill_on_miss_chance : Rat
  duck_present : Bool
  randomVictim : Player
  R : Nat → Nat

/-- The weapon-condition gate of `bang`: the ordered blocking checks
dead, wet, confiscated, sabotaged, jammed, empty.  Returns
`some (record, outcome)` when a check fires (the record as saved by that
check) and `none` when every check passes. -/
def gateCheck (now : Int) (s : Player) : Option (Player × Outcome) :=
  if s.dead > 0 then
    some ({ s with stats := { s.stats with shots_when_dead := s.stats.shots_when_dead + 1 } },
          .shooterDead)
  else if s.wet > now then
    some ({ s with stats := { s.stats with shots_when_wet := s.stats.shots_when_wet + 1 } },
          .shooterWet)
  else if s.weapon_confiscated then
    some ({ s with stats := { s.stats with shots_when_confiscated := s.stats.shots_when_confiscated + 1 } },
          .confiscated)
  else if s.weapon_sabotaged_by.isSome then
    some ({ s with weapon_sabotaged_by := none,
                   weapon_jammed := true,
                   stats := { s.stats with shots_when_sabotaged := s.stats.shots_when_sabotaged + 1 } },
          .sabotaged)
  else if s.weapon_jammed then
    some ({ s with stats := { s.stats with shots_when_jammed := s.stats.shots_when_jammed + 1 } },
          .jammed)
  else if s.bullets ≤ 0 then
    some ({ s with stats := { s.stats with shots_with_empty_magazine := s.stats.shots_with_empty_magazine + 1 } },
          .emptyMagazine)
  else
    none

/-- Outcome of the jam roll: the (possibly sand-decremented) record, the
combined `lucky` flag, and the index of the next unused random draw. -/
structure JamOut where
  hunter : Player
  lucky : Bool
  next : Nat
deriving Repr

/-- The jam roll of `bang`: one base reliability trial; with grease a
second trial is ORed in (drawn only when the first fails, as Python `or`
short-circuits); otherwise with sand a charge is consumed and a second
trial is ANDed in (drawn only when the first succeeds). -/
def jamRoll (li : LevelInfo) (R : Nat → Nat) (s : Player) : JamOut :=
  let lucky := compute_luck (li.reliability : Int) (R 0)
  if s.grease > 0 then
    if lucky then ⟨s, true, 1⟩
    else ⟨s, compute_luck (li.reliability : Int) (R 1), 2⟩
  else if s.sand > 0 then
    let s1 := { s with sand := s.sand - 1 }
    if lucky then ⟨s1, compute_luck (li.reliability : Int) (R 1), 2⟩
    else ⟨s1, false, 1⟩
  else ⟨s, lucky, 1⟩

/-- The record resulting from a failed jam roll: jam the weapon and count
the statistic. -/
def jamFail (s : Player) : Player :=
  { s with weapon_jammed := true,
           stats := { s.stats with shots_jamming_weapon := s.stats.shots_jamming_weapon + 1 } }

/-- Spend one bullet and count it (`db_hunter.bullets -= 1`;
`bullets_used += 1`), run between the jam roll and the accuracy roll. -/
def postJamState (s : Player) : Player :=
  { s with bullets := s.bullets - 1,
           stats := { s.stats with bullets_used := s.stats.bullets_used + 1 } }

/-- Effective accuracy and record after the mirror and sight
adjustments: mirror halves accuracy and consumes a charge; sight then
adds `int((100 - accuracy) / 3)` and consumes a charge. -/
structure AimOut where
  hunter : Player
  accuracy : Rat
deriving Repr

/-- The mirror/sight accuracy adjustments of `bang`. -/
def aimAdjust (li : LevelInfo) (s : Player) : AimOut :=
  let a0 : Rat := (li.accuracy : Int)
  let p1 := if s.mirror > 0 then (a0 / 2, { s with mirror := s.mirror - 1 }) else (a0, s)
  let a1 := p1.1
  let s1 := p1.2
  if s1.sight > 0 then
    ⟨{ s1 with sight := s1.sight - 1 }, a1 + ((pyTrunc ((100 - a1) / 3) : Int) : Rat)⟩
  else
    ⟨s1, a1⟩

/-- The confirmed-death tail of the friendly-fire / murder
sub-resolution (`if killed_someone:` in the source): the shooter `s`
takes the 15-experience penalty, the killed statistic and confiscation;
the victim record is then resolved (the random victim `rv` when no
target was named, otherwise the named target's record `t0`, replaced by
the shooter's own record when the ids coincide), a murder statistic is
counted whenever a target was named, and the victim record receives the
got-killed statistic and a death charge.  Both records are saved when
their ids differ; only the shooter's when they coincide. -/
def confirmedKill (target : Option Player) (rv : Player) (s : Player) : BangResult :=
  let s5 := { s with experience := s.experience - 15,
                     weapon_confiscated := true,
                     stats := { s.stats with killed := s.stats.killed + 1 } }
  match target with
  | none =>
      let t := { rv with dead := rv.dead + 1,
                         stats := { rv.stats with got_killed := rv.stats.got_killed + 1 } }
      if t.id ≠ s5.id then ⟨.killedSomeone, s5, some t⟩
      else ⟨.killedSomeone, s5, none⟩
  | some t0 =>
      if t0.id = s5.id then
        let s6 := { s5 with stats := { s5.stats with murders := s5.stats.murders + 1 } }
        let s7 := { s6 with dead := s6.dead + 1,
                            stats := { s6.stats with got_killed := s6.stats.got_killed + 1 } }
        ⟨.killedSomeone, s7, none⟩
      else
        let s6 := { s5 with stats := { s5.stats with murders := s5.stats.murders + 1 } }
        let t := { t0 with dead := t0.dead + 1,
                           stats := { t0.stats with got_killed := t0.stats.got_killed + 1 } }
        ⟨.killedSomeone, s6, some t⟩

/-- The post-jam part of `bang`, entered with the bullet already spent:
accuracy roll (draw at index `i`), homing override, then either the
friendly-fire / murder sub-resolution or the clean-hit path. -/
def shotResolve (env : BangEnv) (li : LevelInfo) (target0 : Option Player)
    (s : Player) (i : Nat) : BangResult :=
  let am := aimAdjust li s
  let s2 := am.hunter
  let missed0 := ! compute_luck am.accuracy (env.R i)
  let homing := s2.homing_bullets ≥ 1
  let s3 := if homing then { s2 with homing_bullets := s2.homing_bullets - 1 } else s2
  let missed := if homing then false else missed0
  let target := if homing then some s3 else target0
  if (missed && target.isNone) || (target.isSome && !missed) then
    let s4 :=
      if missed then
        { s3 with experience := s3.experience - 2,
                  stats := { s3.stats with missed := s3.stats.missed + 1 } }
      else if homing then
        { s3 with experience := s3.experience - 2,
                  stats := { s3.stats with homing_kills := s3.stats.homing_kills + 1,
                                           missed := s3.stats.missed + 1 } }
      else s3
    match target with
    | some _ => confirmedKill target env.randomVictim s4
    | none =>
        if compute_luck env.kill_on_miss_chance (env.R (i + 1)) then
          confirmedKill none env.randomVictim s4
        else
          ⟨.missedTree, s4, none⟩
  else
    if env.duck_present then
      ⟨.duckHit,
       { s3 with stats := { s3.stats with shots_with_duck := s3.stats.shots_with_duck + 1 } },
       none⟩
    else if s3.detector ≥ 1 then
      ⟨.detectorStopped,
       { s3 with detector := s3.detector - 1,
                 bullets := s3.bullets + 1,
                 stats := { s3.stats with
                              shots_stopped_by_detector := s3.stats.shots_stopped_by_detector + 1,
                              bullets_used := s3.stats.bullets_used - 1 } },
       none⟩
    else
      ⟨.shotNothing,
       { s3 with experience := s3.experience - 2,
                 stats := { s3.stats with shots_without_ducks := s3.stats.shots_without_ducks + 1 } },
       none⟩

/-- One `bang` invocation: gate, jam roll, bullet spend, shot
resolution.  `target` is the record `get_player` would return for an
explicitly named member (or `none` when no member was named). -/
def bang (env : BangEnv) (target : Option Player) (s : Player) : BangResult :=
  match gateCheck env.now s with
  | some (s1, o) => ⟨o, s1, none⟩
  | none =>
      let li := env.level s.experience
      let jr := jamRoll li env.R s
      if jr.lucky then
        shotResolve env li target (postJamState jr.hunter) jr.next
      else
        ⟨.jamRollFailed, jamFail jr.hunter, none⟩

/-- The terminal outcome of one `reload` invocation.  `fallthrough` is
unreachable (the source's if/elif chain is exhaustive). -/
inductive ReloadOutcome
  | confiscated
  | unjammed
  | reloaded
  | unneeded
  | noMagazines
  | fallthrough
deriving DecidableEq, Repr

/-- One `reload` invocation: confiscated check, unjam, refill from a
magazine, unneeded reload, or no magazines available. -/
def reload (level : Int → LevelInfo) (s : Player) : Player × ReloadOutcome :=
  if s.weapon_confiscated then
    ({ s with stats := { s.stats with reloads_when_confiscated := s.stats.reloads_when_confiscated + 1 } },
     .confiscated)
  else if s.weapon_jammed then
    ({ s with weapon_jammed := false }, .unjammed)
  else
    let li := level s.experience
    if s.bullets ≤ 0 ∧ s.magazines ≥ 1 then
      ({ s with magazines := s.magazines - 1,
                bullets := li.bullets,
                stats := { s.stats with reloads := s.stats.reloads + 1 } },
       .reloaded)
    else if s.bullets > 0 then
      ({ s with stats := { s.stats with unneeded_reloads := s.stats.unneeded_reloads + 1 } },
       .unneeded)
    else if s.magazines ≤ 0 then
      ({ s with stats := { s.stats with unneeded_reloads := s.stats.unneeded_reloads + 1 } },
       .noMagazines)
    else
      (s, .fallthrough)

/-- All-zero statistics record, used by the concrete witnesses. -/
def statsZ : Stats := ⟨0, 0, 0, 0, 0, 0, 0, 0, 0, 0, 0, 0, 0, 0, 0, 0, 0, 0, 0⟩

/-- A baseline player with a clear gate, used by the concrete witnesses. -/
def basePlayer : Player :=
  { id := 1, experience := 0, bullets := 3, magazines := 2,
    weapon_confiscated := false, weapon_jammed := false, weapon_sabotaged_by := none,
    dead := 0, wet := 0, sand := 0, mirror := 0, sight := 0,
    homing_bullets := 0, detector := 0, grease := 0, stats := statsZ }

/-- Progression snapshot used by the concrete witnesses. -/
def baseLevel : LevelInfo := ⟨8, 2, 80, 60⟩

/-- Witness environment whose random draws are all 90: a reliability-80
jam roll fails. -/
def envHigh : BangEnv :=
  { now := 1000, level := fun _ => baseLevel, kill_on_miss_chance := 5,
    duck_present := false, randomVictim := { basePlayer with id := 2 },
    R := fun _ => 90 }

/-- Witness environment whose random draws are all 1: every trial
succeeds. -/
def envLow : BangEnv := { envHigh with R := fun _ => 1 }

/-! ## Helper lemmas -/

theorem gateCheck_none (now : Int) (s : Player)
    (h1 : ¬ s.dead > 0) (h2 : ¬ s.wet > now) (h3 : s.weapon_confiscated = false)
    (h4 : s.weapon_sabotaged_by = none) (h5 : s.weapon_jammed = false)
    (h6 : 0 < s.bullets) :
    gateCheck now s = none := by
  unfold gateCheck
  rw [if_neg h1, if_neg h2, if_neg (by simp [h3]), if_neg (by simp [h4]),
      if_neg (by simp [h5]), if_neg (by omega)]

theorem bang_passed (env : BangEnv) (target : Option Player) (s : Player)
    (hg : gateCheck env.now s = none) :
    bang env target s =
      (if (jamRoll (env.level s.experience) env.R s).lucky then
        shotResolve env (env.level s.experience) target
          (postJamState (jamRoll (env.level s.experience) env.R s).hunter)
          (jamRoll (env.level s.experience) env.R s).next
      else
        ⟨.jamRollFailed, jamFail (jamRoll (env.level s.experience) env.R s).hunter, none⟩) := by
  unfold bang
  rw [hg]

theorem jamRoll_hunter (li : LevelInfo) (R : Nat → Nat) (s : Player) :
    (jamRoll li R s).hunter = s ∨
    (jamRoll li R s).hunter = { s with sand := s.sand - 1 } := by
  unfold jamRoll
  dsimp only
  split_ifs <;> simp [apply_ite JamOut.hunter]

theorem aimAdjust_hunter (li : LevelInfo) (s : Player) :
    (aimAdjust li s).hunter =
      { s with mirror := if s.mirror > 0 then s.mirror - 1 else s.mirror,
               sight := if s.sight > 0 then s.sight - 1 else s.sight } := by
  unfold aimAdjust
  dsimp only
  split_ifs with hm hs hs <;> simp_all

/-! ## Claim theorems -/

/-- Claim C6: the chance trial compares a uniform draw in [1,100] against
the threshold `p` and returns true iff the draw is ≤ p; hence for every
draw in range it is false whenever p ≤ 0 and true whenever p ≥ 100. -/
theorem c6_trial_contract (p : Rat) (d : Nat) (h1 : 1 ≤ d) (h2 : d ≤ 100) :
    (p ≤ 0 → compute_luck p d = false) ∧
    (100 ≤ p → compute_luck p d = true) ∧
    (compute_luck p d = true ↔ (d : Rat) ≤ p) := by
  have hd1 : (1 : Rat) ≤ (d : Rat) := by exact_mod_cast h1
  have hd2 : (d : Rat) ≤ 100 := by exact_mod_cast h2
  refine ⟨?_, ?_, ?_⟩
  · intro hp
    simp only [compute_luck, decide_eq_false_iff_not]
    intro hle
    linarith
  · intro hp
    simp only [compute_luck, decide_eq_true_eq]
    linarith
  · simp [compute_luck]

/-- Witness for C6 at p = 0, p = 100 and a draw of 50. -/
theorem c6_trial_contract_witness :
    compute_luck 0 50 = false ∧ compute_luck 100 50 = true :=
  ⟨(c6_trial_contract 0 50 (by norm_num) (by norm_num)).1 le_rfl,
   (c6_trial_contract 100 50 (by norm_num) (by norm_num)).2.1 le_rfl⟩

/-- Claim C8: a reload with `bullets = 0` and `magazines = 0` on a
weapon neither confiscated nor jammed changes nothing in the player
record except the unneeded-reload (no magazines) statistic; in
particular `bullets` and `magazines` both stay 0 and experience and
powerups are untouched. -/
theorem c8_reload_empty_noop (level : Int → LevelInfo) (s : Player)
    (hb : s.bullets = 0) (hm : s.magazines = 0)
    (hc : s.weapon_confiscated = false) (hj : s.weapon_jammed = false) :
    reload level s =
      ({ s with stats := { s.stats with unneeded_reloads := s.stats.unneeded_reloads + 1 } },
       .noMagazines) := by
  unfold reload
  rw [if_neg (by simp [hc]), if_neg (by simp [hj])]
  dsimp only
  rw [if_neg (by omega), if_neg (by omega), if_pos (by omega)]

/-- Witness for C8: the baseline player with an empty weapon and no
magazines. -/
theorem c8_reload_empty_noop_witness :
    reload (fun _ => baseLevel) { basePlayer with bullets := 0, magazines := 0 } =
      ({ basePlayer with bullets := 0, magazines := 0,
                         stats := { statsZ with unneeded_reloads := 1 } },
       .noMagazines) := by
  have h := c8_reload_empty_noop (fun _ => baseLevel)
    { basePlayer with bullets := 0, magazines := 0 }
    (by decide) (by decide) (by decide) (by decide)
  simpa [basePlayer, statsZ] using h

/-- Claim C2: the weapon-condition gate is evaluated in the fixed order
dead, wet, confiscated, sabotaged, jammed, empty; in particular a
shooter who is dead and out of bullets always gets the "shooter is
dead" outcome and never "empty magazine". -/
theorem c2_gate_order (env : BangEnv) (target : Option Player) (s : Player) :
    (s.dead > 0 → (bang env target s).outcome = .shooterDead) ∧
    (¬ s.dead > 0 → s.wet > env.now → (bang env target s).outcome = .shooterWet) ∧
    (¬ s.dead > 0 → ¬ s.wet > env.now → s.weapon_confiscated = true →
        (bang env target s).outcome = .confiscated) ∧
    (¬ s.dead > 0 → ¬ s.wet > env.now → s.weapon_confiscated = false →
        s.weapon_sabotaged_by.isSome → (bang env target s).outcome = .sabotaged) ∧
    (¬ s.dead > 0 → ¬ s.wet > env.now → s.weapon_confiscated = false →
        s.weapon_sabotaged_by = none → s.weapon_jammed = true →
        (bang env target s).outcome = .jammed) ∧
    (¬ s.dead > 0 → ¬ s.wet > env.now → s.weapon_confiscated = false →
        s.weapon_sabotaged_by = none → s.weapon_jammed = false → s.bullets ≤ 0 →
        (bang env target s).outcome = .emptyMagazine) ∧
    (s.dead > 0 → s.bullets ≤ 0 →
        (bang env target s).outcome = .shooterDead ∧
        (bang env target s).outcome ≠ .emptyMagazine) := by
  refine ⟨?_, ?_, ?_, ?_, ?_, ?_, ?_⟩
  · intro h1
    unfold bang gateCheck
    rw [if_pos h1]
  · intro h1 h2
    unfold bang gateCheck
    rw [if_neg h1, if_pos h2]
  · intro h1 h2 h3
    unfold bang gateCheck
    rw [if_neg h1, if_neg h2, if_pos h3]
  · intro h1 h2 h3 h4
    unfold bang gateCheck
    rw [if_neg h1, if_neg h2, if_neg (by simp [h3]), if_pos h4]
  · intro h1 h2 h3 h4 h5
    unfold bang gateCheck
    rw [if_neg h1, if_neg h2, if_neg (by simp [h3]), if_neg (by simp [h4]), if_pos h5]
  · intro h1 h2 h3 h4 h5 h6
    unfold bang gateCheck
    rw [if_neg h1, if_neg h2, if_neg (by simp [h3]), if_neg (by simp [h4]),
        if_neg (by simp [h5]), if_pos h6]
  · intro h1 h6
    have hd : (bang env target s).outcome = .shooterDead := by
      unfold bang gateCheck
      rw [if_pos h1]
    exact ⟨hd, by rw [hd]; intro h; cases h⟩

/-- Witness for C2: a dead shooter with an empty magazine reports
"shooter is dead", not "empty magazine". -/
theorem c2_gate_order_witness :
    (bang envHigh none { basePlayer with dead := 1, bullets := 0 }).outcome
        = Outcome.shooterDead ∧
    (bang envHigh none { basePlayer with dead := 1, bullets := 0 }).outcome
        ≠ Outcome.emptyMagazine :=
  (c2_gate_order envHigh none { basePlayer with dead := 1, bullets := 0 }).2.2.2.2.2.2
    (by decide) (by decide)

/-- Claim C5: sabotage is single-use.  A shot attempt that reaches the
sabotage check with `weapon_sabotaged_by` set clears the reference and
jams the weapon in the same persisted mutation, aborting with the
"sabotage detonated" outcome; any later shot attempt (at the same or a
later time) on the resulting record aborts with the plain "jammed"
outcome instead of sabotage. -/
theorem c5_sabotage_single_use (env env2 : BangEnv) (t1 t2 : Option Player)
    (s : Player) (x : Nat)
    (h1 : ¬ s.dead > 0) (h2 : ¬ s.wet > env.now) (h3 : s.weapon_confiscated = false)
    (h4 : s.weapon_sabotaged_by = some x) (hnow : env.now ≤ env2.now) :
    (bang env t1 s).outcome = .sabotaged ∧
    (bang env t1 s).hunter.weapon_sabotaged_by = none ∧
    (bang env t1 s).hunter.weapon_jammed = true ∧
    (bang env2 t2 (bang env t1 s).hunter).outcome = .jammed := by
  have hr : bang env t1 s =
      ⟨.sabotaged,
       { s with weapon_sabotaged_by := none,
                weapon_jammed := true,
                stats := { s.stats with shots_when_sabotaged := s.stats.shots_when_sabotaged + 1 } },
       none⟩ := by
    unfold bang gateCheck
    rw [if_neg h1, if_neg h2, if_neg (by simp [h3]), if_pos (by simp [h4])]
  refine ⟨by rw [hr], by rw [hr], by rw [hr], ?_⟩
  rw [hr]
  unfold bang gateCheck
  rw [if_neg (by simpa using h1), if_neg (by simp; omega), if_neg (by simpa using h3),
      if_neg (by simp), if_pos (by simp)]

/-- Witness for C5: a sabotaged baseline player detonates the trap on
the first shot and is plainly jammed on the second. -/
theorem c5_sabotage_single_use_witness :
    (bang envHigh none { basePlayer with weapon_sabotaged_by := some 7 }).outcome
        = Outcome.sabotaged ∧
    (bang envHigh none { basePlayer with weapon_sabotaged_by := some 7 }).hunter.weapon_sabotaged_by
        = none ∧
    (bang envHigh none { basePlayer with weapon_sabotaged_by := some 7 }).hunter.weapon_jammed
        = true ∧
    (bang envHigh none
        (bang envHigh none { basePlayer with weapon_sabotaged_by := some 7 }).hunter).outcome
        = Outcome.jammed :=
  c5_sabotage_single_use envHigh envHigh none none
    { basePlayer with weapon_sabotaged_by := some 7 } 7
    (by decide) (by decide) (by decide) (by decide) (by decide)

/-- Claim C1: bullet accounting for a shot attempt that passes the
weapon condition gate.  If the combined jam roll fails, `bullets` is
unchanged, the weapon is set jammed and the outcome is "jammed by the
roll" — no bullet is consumed.  If the jam roll succeeds, the attempt
proceeds to the accuracy-roll phase (`shotResolve`) on a record whose
`bullets` is exactly the initial value minus 1. -/
theorem c1_bullet_accounting (env : BangEnv) (target : Option Player) (s : Player)
    (h1 : ¬ s.dead > 0) (h2 : ¬ s.wet > env.now) (h3 : s.weapon_confiscated = false)
    (h4 : s.weapon_sabotaged_by = none) (h5 : s.weapon_jammed = false)
    (h6 : 0 < s.bullets) :
    ((jamRoll (env.level s.experience) env.R s).lucky = false →
        (bang env target s).outcome = .jamRollFailed ∧
        (bang env target s).hunter.bullets = s.bullets ∧
        (bang env target s).hunter.weapon_jammed = true) ∧
    ((jamRoll (env.level s.experience) env.R s).lucky = true →
        bang env target s =
          shotResolve env (env.level s.experience) target
            (postJamState (jamRoll (env.level s.experience) env.R s).hunter)
            (jamRoll (env.level s.experience) env.R s).next ∧
        (postJamState (jamRoll (env.level s.experience) env.R s).hunter).bullets
            = s.bullets - 1) := by
  have hb := bang_passed env target s (gateCheck_none env.now s h1 h2 h3 h4 h5 h6)
  have hjb : (jamRoll (env.level s.experience) env.R s).hunter.bullets = s.bullets := by
    rcases jamRoll_hunter (env.level s.experience) env.R s with h | h <;> rw [h]
  constructor
  · intro hl
    rw [hb, if_neg (by simp [hl])]
    refine ⟨rfl, ?_, rfl⟩
    simp only [jamFail, hjb]
  · intro hl
    rw [hb, if_pos hl]
    exact ⟨rfl, by simp only [postJamState, hjb]⟩

/-- Witness for C1: a failed jam roll on the baseline player leaves the
3 bullets untouched and jams the weapon. -/
theorem c1_bullet_accounting_witness :
    (bang envHigh none basePlayer).outcome = Outcome.jamRollFailed ∧
    (bang envHigh none basePlayer).hunter.bullets = basePlayer.bullets ∧
    (bang envHigh none basePlayer).hunter.weapon_jammed = true :=
  (c1_bullet_accounting envHigh none basePlayer
      (by decide) (by decide) (by decide) (by decide) (by decide) (by decide)).1
    (by decide)

/-- Claim C3: on every confirmed death in the friendly-fire / murder
sub-resolution, the shooter loses a further 15 experience and has the
weapon confiscated, and the victim record — the named target's record,
the shooter's own record on a suicide, or the random victim's on a
stray kill — gets its `dead` counter and its got-killed statistic
incremented by exactly one.  (When no target was named, the random
victim is assumed to be a player other than the shooter.) -/
theorem c3_confirmed_death (target : Option Player) (rv : Player) (s : Player)
    (hrv : target = none → rv.id ≠ s.id) :
    (confirmedKill target rv s).hunter.weapon_confiscated = true ∧
    (confirmedKill target rv s).hunter.experience = s.experience - 15 ∧
    (match target with
     | none =>
         ∃ t, (confirmedKill target rv s).victim = some t ∧
           t.dead = rv.dead + 1 ∧ t.stats.got_killed = rv.stats.got_killed + 1
     | some t0 =>
         if t0.id = s.id then
           (confirmedKill target rv s).victim = none ∧
           (confirmedKill target rv s).hunter.dead = s.dead + 1 ∧
           (confirmedKill target rv s).hunter.stats.got_killed = s.stats.got_killed + 1
         else
           ∃ t, (confirmedKill target rv s).victim = some t ∧
             t.dead = t0.dead + 1 ∧ t.stats.got_killed = t0.stats.got_killed + 1) := by
  cases target with
  | none =>
      have hne : rv.id ≠ s.id := hrv rfl
      refine ⟨?_, ?_, ?_⟩ <;> simp [confirmedKill, hne]
  | some t0 =>
      by_cases hid : t0.id = s.id
      · refine ⟨?_, ?_, ?_⟩ <;> simp [confirmedKill, hid]
      · refine ⟨?_, ?_, ?_⟩ <;> simp [confirmedKill, hid]

/-- Witness for C3: the baseline player kills the distinct random
victim on a stray shot. -/
theorem c3_confirmed_death_witness :
    (confirmedKill none { basePlayer with id := 2 } basePlayer).hunter.weapon_confiscated
        = true ∧
    (confirmedKill none { basePlayer with id := 2 } basePlayer).hunter.experience
        = basePlayer.experience - 15 ∧
    ∃ t, (confirmedKill none { basePlayer with id := 2 } basePlayer).victim = some t ∧
      t.dead = { basePlayer with id := 2 }.dead + 1 ∧
      t.stats.got_killed = { basePlayer with id := 2 }.stats.got_killed + 1 :=
  c3_confirmed_death none { basePlayer with id := 2 } basePlayer (fun _ => by decide)

/-- Claim C4 as stated is false on the code: on a shot that resolves to
suicide (the shooter explicitly names themself, the jam and accuracy
rolls succeed), the shooter's murder statistic IS incremented — the
`murders` counter is bumped whenever an explicit target was named, with
no shooter == victim exception. -/
theorem c4_counterexample :
    (bang envLow (some basePlayer) basePlayer).outcome = Outcome.killedSomeone ∧
    (bang envLow (some basePlayer) basePlayer).victim = none ∧
    (bang envLow (some basePlayer) basePlayer).hunter.dead = basePlayer.dead + 1 ∧
    (bang envLow (some basePlayer) basePlayer).hunter.stats.murders
        = basePlayer.stats.murders + 1 := by
  decide

/-- Claim C4 amended: when an explicit target was named, that target is
the victim (naming oneself resolves to suicide — the death lands on the
shooter's own record), and a murder statistic is recorded for the
shooter on every confirmed death with a named target, including when
shooter == victim. -/
theorem c4_murder_stat (t0 rv s : Player) :
    (confirmedKill (some t0) rv s).hunter.stats.murders = s.stats.murders + 1 ∧
    (t0.id = s.id →
        (confirmedKill (some t0) rv s).victim = none ∧
        (confirmedKill (some t0) rv s).hunter.dead = s.dead + 1) ∧
    (t0.id ≠ s.id →
        ∃ t, (confirmedKill (some t0) rv s).victim = some t ∧
          t.id = t0.id ∧ t.dead = t0.dead + 1) := by
  by_cases hid : t0.id = s.id
  · refine ⟨?_, fun _ => ⟨?_, ?_⟩, fun h => absurd hid h⟩ <;> simp [confirmedKill, hid]
  · refine ⟨?_, fun h => absurd h hid, fun _ => ?_⟩ <;> simp [confirmedKill, hid]

/-- Witness for C4 (amended): a suicide by explicit self-target counts
a murder, and a murder of the distinct random victim also counts one. -/
theorem c4_murder_stat_witness :
    (confirmedKill (some basePlayer) { basePlayer with id := 2 } basePlayer).hunter.stats.murders
        = basePlayer.stats.murders + 1 ∧
    (confirmedKill (some basePlayer) { basePlayer with id := 2 } basePlayer).victim = none ∧
    (confirmedKill (some basePlayer) { basePlayer with id := 2 } basePlayer).hunter.dead
        = basePlayer.dead + 1 :=
  ⟨(c4_murder_stat basePlayer { basePlayer with id := 2 } basePlayer).1,
   ((c4_murder_stat basePlayer { basePlayer with id := 2 } basePlayer).2.1 (by decide)).1,
   ((c4_murder_stat basePlayer { basePlayer with id := 2 } basePlayer).2.1 (by decide)).2⟩

/-- Claim C7: a clean-hit shot (gate passed, jam roll passed, no
explicit target, no homing, accuracy roll succeeded) with the detector
counter at 1 and no duck pending consumes the detector to 0, refunds
the spent bullet (final `bullets` equals the pre-shot value), leaves
the bullets-used statistic with no net increment, and applies no
experience penalty. -/
theorem c7_detector_refund (env : BangEnv) (s : Player)
    (h1 : ¬ s.dead > 0) (h2 : ¬ s.wet > env.now) (h3 : s.weapon_confiscated = false)
    (h4 : s.weapon_sabotaged_by = none) (h5 : s.weapon_jammed = false)
    (h6 : 0 < s.bullets)
    (hlucky : (jamRoll (env.level s.experience) env.R s).lucky = true)
    (hhom : s.homing_bullets < 1)
    (hdet : s.detector = 1)
    (hduck : env.duck_present = false)
    (hhit : compute_luck
        (aimAdjust (env.level s.experience)
          (postJamState (jamRoll (env.level s.experience) env.R s).hunter)).accuracy
        (env.R (jamRoll (env.level s.experience) env.R s).next) = true) :
    (bang env none s).outcome = .detectorStopped ∧
    (bang env none s).hunter.detector = 0 ∧
    (bang env none s).hunter.bullets = s.bullets ∧
    (bang env none s).hunter.stats.bullets_used = s.stats.bullets_used ∧
    (bang env none s).hunter.experience = s.experience := by
  have hb := bang_passed env none s (gateCheck_none env.now s h1 h2 h3 h4 h5 h6)
  rw [hb, if_pos hlucky]
  have hh2 : ¬ (1 ≤ s.homing_bullets) := by omega
  rcases jamRoll_hunter (env.level s.experience) env.R s with hJ | hJ <;>
  · rw [hJ] at hhit ⊢
    simp only [shotResolve, hhit, Bool.not_true]
    simp only [aimAdjust_hunter, postJamState, ge_iff_le]
    simp only [hh2, if_false, Option.isNone_none, Option.isSome_none, Bool.false_and,
               Bool.and_true, Bool.and_false, Bool.false_or, Bool.or_false, Bool.not_false,
               hduck, Bool.false_eq_true, hdet]
    norm_num

/-- Witness for C7: the baseline player with one detector charge, all
draws 1, no duck: the shot is stopped, the bullet refunded. -/
theorem c7_detector_refund_witness :
    (bang envLow none { basePlayer with detector := 1 }).outcome = Outcome.detectorStopped ∧
    (bang envLow none { basePlayer with detector := 1 }).hunter.detector = 0 ∧
    (bang envLow none { basePlayer with detector := 1 }).hunter.bullets
        = { basePlayer with detector := 1 }.bullets ∧
    (bang envLow none { basePlayer with detector := 1 }).hunter.stats.bullets_used
        = { basePlayer with detector := 1 }.stats.bullets_used ∧
    (bang envLow none { basePlayer with detector := 1 }).hunter.experience
        = { basePlayer with detector := 1 }.experience :=
  c7_detector_refund envLow { basePlayer with detector := 1 }
    (by decide) (by decide) (by decide) (by decide) (by decide) (by decide)
    (by decide) (by decide) (by decide) (by decide) (by decide)

/-- Claim C10: a shot attempt that passes the gate and the jam roll
with at least one homing bullet deterministically resolves to a
confirmed death of the shooter themself, whatever the accuracy draw and
with the kill-on-miss roll never consulted: one homing charge is
consumed, any active mirror and sight charges are still consumed, and
the shooter's record takes a death charge, weapon confiscation and a
total experience loss of 17 (2 for the forced miss bookkeeping plus 15
for the kill), with the homing-kill and killed statistics counted.  No
second record is saved (the victim is the shooter). -/
theorem c10_homing_self_kill (env : BangEnv) (target : Option Player) (s : Player)
    (h1 : ¬ s.dead > 0) (h2 : ¬ s.wet > env.now) (h3 : s.weapon_confiscated = false)
    (h4 : s.weapon_sabotaged_by = none) (h5 : s.weapon_jammed = false)
    (h6 : 0 < s.bullets)
    (hlucky : (jamRoll (env.level s.experience) env.R s).lucky = true)
    (hh : 1 ≤ s.homing_bullets) :
    (bang env target s).outcome = .killedSomeone ∧
    (bang env target s).victim = none ∧
    (bang env target s).hunter.dead = s.dead + 1 ∧
    (bang env target s).hunter.weapon_confiscated = true ∧
    (bang env target s).hunter.experience = s.experience - 17 ∧
    (bang env target s).hunter.homing_bullets = s.homing_bullets - 1 ∧
    (bang env target s).hunter.bullets = s.bullets - 1 ∧
    (bang env target s).hunter.mirror = (if 0 < s.mirror then s.mirror - 1 else s.mirror) ∧
    (bang env target s).hunter.sight = (if 0 < s.sight then s.sight - 1 else s.sight) ∧
    (bang env target s).hunter.stats.homing_kills = s.stats.homing_kills + 1 ∧
    (bang env target s).hunter.stats.killed = s.stats.killed + 1 := by
  have hb := bang_passed env target s (gateCheck_none env.now s h1 h2 h3 h4 h5 h6)
  rw [hb, if_pos hlucky]
  rcases jamRoll_hunter (env.level s.experience) env.R s with hJ | hJ <;>
  · rw [hJ]
    simp only [shotResolve, confirmedKill, aimAdjust_hunter, postJamState, ge_iff_le]
    simp only [hh, if_true, Option.isSome_some, Bool.not_false, Bool.and_true, Bool.or_true,
               Bool.true_and, Bool.false_and, Bool.false_or, Bool.true_or, Bool.or_self,
               if_false, Bool.and_self]
    norm_num
    omega

/-- Witness for C10: the baseline player with two homing bullets and
every draw 1 kills themself, ending at experience -17 with one homing
charge left. -/
theorem c10_homing_self_kill_witness :
    (bang envLow none { basePlayer with homing_bullets := 2 }).outcome
        = Outcome.killedSomeone ∧
    (bang envLow none { basePlayer with homing_bullets := 2 }).victim = none ∧
    (bang envLow none { basePlayer with homing_bullets := 2 }).hunter.dead
        = { basePlayer with homing_bullets := 2 }.dead + 1 ∧
    (bang envLow none { basePlayer with homing_bullets := 2 }).hunter.weapon_confiscated
        = true ∧
    (bang envLow none { basePlayer with homing_bullets := 2 }).hunter.experience
        = { basePlayer with homing_bullets := 2 }.experience - 17 ∧
    (bang envLow none { basePlayer with homing_bullets := 2 }).hunter.homing_bullets
        = { basePlayer with homing_bullets := 2 }.homing_bullets - 1 ∧
    (bang envLow none { basePlayer with homing_bullets := 2 }).hunter.bullets
        = { basePlayer with homing_bullets := 2 }.bullets - 1 ∧
    (bang envLow none { basePlayer with homing_bullets := 2 }).hunter.mirror
        = (if 0 < { basePlayer with homing_bullets := 2 }.mirror then
             { basePlayer with homing_bullets := 2 }.mirror - 1
           else { basePlayer with homing_bullets := 2 }.mirror) ∧
    (bang envLow none { basePlayer with homing_bullets := 2 }).hunter.sight
        = (if 0 < { basePlayer with homing_bullets := 2 }.sight then
             { basePlayer with homing_bullets := 2 }.sight - 1
           else { basePlayer with homing_bullets := 2 }.sight) ∧
    (bang envLow none { basePlayer with homing_bullets := 2 }).hunter.stats.homing_kills
        = { basePlayer with homing_bullets := 2 }.stats.homing_kills + 1 ∧
    (bang envLow none { basePlayer with homing_bullets := 2 }).hunter.stats.killed
        = { basePlayer with homing_bullets := 2 }.stats.killed + 1 :=
  c10_homing_self_kill envLow none { basePlayer with homing_bullets := 2 }
    (by decide) (by decide) (by decide) (by decide) (by decide) (by decide)
    (by decide) (by decide)

end DuckHunt
